import Mathlib

/-!
Shallow embedding of the core of `xpu-benchmark` (modules
`src/xpu_bench/runner.py` and `src/xpu_bench/metrics.py`) and proofs of the
spec claims about it.

Modelling conventions:
* Python dict-shaped benchmark results become the structure `BenchResult`;
  keys that some producers omit (`type`, `metrics`, `error`, `status`) are
  `Option`-valued, mirroring `dict.get`.
* Numeric values are rationals (`Rat`); Python's float arithmetic on these
  code paths is plain `+ / *` on small values, modelled exactly.
* Configuration mappings preserve insertion order, so they are association
  lists (`List (String × _)`).
* The pluggable benchmark unit (`_run_single_*_benchmark` and, in general,
  any registered unit) is a parameter returning `Except String BenchResult`:
  `.error msg` models an exception whose `str()` is `msg`.
* Wall-clock timestamps are passed in as parameters (`t`, `now`).
-/

namespace XpuBench

/-- One benchmark result dictionary, as built by
`runner.py` (`_run_single_*_benchmark` success dicts and the
`except`-branch failure dicts).  Fields absent from a given dict are `none`. -/
structure BenchResult where
  benchmark_name : Option String
  type : Option String
  status : Option String
  metrics : Option (List (String × Rat))
  error : Option String
  timestamp : Nat
deriving DecidableEq, Repr

/-- The slice of one `benchmarks.<group>.<name>` configuration mapping that
the orchestrator itself inspects: the optional `enabled` key
(`benchmark_config.get("enabled", True)`, runner.py line 105). -/
structure EntryConfig where
  enabled : Option Bool
deriving DecidableEq, Repr

/-- The failure dict appended by the `except` branch of
`run_training_benchmarks` (runner.py lines 117-122; the inference and stress
loops at lines 146-151 and 175-180 are identical):
`{"benchmark_name": name, "status": "failed", "error": str(e), "timestamp": now}`.
The keys `type` and `metrics` are absent from this dict. -/
def failedResult (name : String) (msg : String) (t : Nat) : BenchResult :=
  { benchmark_name := some name
    type := none
    status := some "failed"
    metrics := none
    error := some msg
    timestamp := t }

/-- Embeds `BenchmarkRunner.run_training_benchmarks` (runner.py lines 97-124; the
inference and stress variants differ only in which unit they call): iterate
the configured entries in order, skip an entry whose `enabled` key is present
and falsy, otherwise invoke the unit; append its result on success and a
`failedResult` on an exception, then continue with the next entry. -/
def run_benchmarks (cfg : List (String × EntryConfig))
    (unit : String → EntryConfig → Except String BenchResult) (t : Nat) :
    List BenchResult :=
  match cfg with
  | [] => []
  | (name, bc) :: rest =>
    if bc.enabled.getD true = false then
      run_benchmarks rest unit t
    else
      (match unit name bc with
       | .ok r => r
       | .error e => failedResult name e t) :: run_benchmarks rest unit t

/-- The result contributed by one enabled entry: the unit's own dict on
success, the orchestrator's failure dict on an exception. -/
def run_unit_result (unit : String → EntryConfig → Except String BenchResult)
    (t : Nat) (p : String × EntryConfig) : BenchResult :=
  match unit p.1 p.2 with
  | .ok r => r
  | .error e => failedResult p.1 e t

/-- Whether the orchestrator treats an entry as enabled:
`benchmark_config.get("enabled", True)`. -/
def entryEnabled (p : String × EntryConfig) : Bool :=
  p.2.enabled.getD true

/-- The `summary` sub-dict of the report built by
`BenchmarkRunner.generate_report` (runner.py lines 242-249). -/
structure ReportSummary where
  total_tests : Nat
  successful_tests : Nat
  failed_tests : Nat
  hardware_type : String
  timestamp : Nat
deriving DecidableEq, Repr

/-- The in-memory `report_data` value of `generate_report`
(runner.py lines 242-251); it is serialized verbatim to the JSON report and
then passed unchanged to `_generate_html_report`. -/
structure ReportData where
  summary : ReportSummary
  results : List BenchResult
deriving DecidableEq, Repr

/-- Embeds the construction of `report_data` in `BenchmarkRunner.generate_report`
(runner.py lines 242-251): `total_tests = len(results)`,
`successful_tests = len([r for r in results if r.get("status") == "success"])`,
`failed_tests = len([r for r in results if r.get("status") == "failed"])`.
The hardware type (from `detect_hardware`) and the timestamp are parameters. -/
def generate_report (results : List BenchResult) (hw : String) (t : Nat) :
    ReportData :=
  { summary :=
    { total_tests := results.length
      successful_tests := (results.filter (fun r => r.status == some "success")).length
      failed_tests := (results.filter (fun r => r.status == some "failed")).length
      hardware_type := hw
      timestamp := t }
    results := results }

/-- The success-rate computation of `_generate_html_report`
(runner.py line 337):
`(successful_tests / total_tests * 100) if total_tests > 0 else 0`. -/
def success_rate (s : ReportSummary) : Rat :=
  if s.total_tests > 0 then
    (s.successful_tests : Rat) / (s.total_tests : Rat) * 100
  else 0

/-- The data rendered for one result in the HTML report's detail section
(runner.py lines 310-333): name, type, status and timestamp each fall back
to `"Unknown"` via `result.get(...)`, the CSS class is `"success"` exactly
when the status is `"success"`, and the metrics table is present exactly
when the dict has a `metrics` key. -/
structure HtmlRow where
  name : String
  row_type : String
  row_status : String
  row_timestamp : Nat
  status_class : String
  metrics_table : Option (List (String × Rat))
deriving DecidableEq, Repr

/-- The values interpolated into the HTML template by
`_generate_html_report` (runner.py lines 267-347), i.e. the report as the
HTML encodes it: the summary numbers from `report_data["summary"]`, the
computed success rate, and one row per result. -/
structure HtmlReport where
  timestamp : Nat
  hardware_type : String
  total_tests : Nat
  successful_tests : Nat
  failed_tests : Nat
  rate : Rat
  rows : List HtmlRow
deriving DecidableEq, Repr

/-- Embeds `BenchmarkRunner._generate_html_report` (runner.py lines 267-347),
modelled as the structured content it interpolates into the template. -/
def generate_html_report (rep : ReportData) : HtmlReport :=
  { timestamp := rep.summary.timestamp
    hardware_type := rep.summary.hardware_type
    total_tests := rep.summary.total_tests
    successful_tests := rep.summary.successful_tests
    failed_tests := rep.summary.failed_tests
    rate := success_rate rep.summary
    rows := rep.results.map (fun r =>
      { name := r.benchmark_name.getD "Unknown"
        row_type := r.type.getD "Unknown"
        row_status := r.status.getD "Unknown"
        row_timestamp := r.timestamp
        status_class := if r.status == some "success" then "success" else "failed"
        metrics_table := r.metrics }) }

/-- A Python exception class, as far as the hardware detectors distinguish
them: `_detect_nvidia_gpu` catches exactly `ImportError`
(runner.py line 85), everything else is some other exception. -/
inductive PyErr where
  | importError (msg : String)
  | otherError (msg : String)
deriving DecidableEq, Repr

/-- Whether an exception is an `ImportError`. -/
def PyErr.isImportError : PyErr → Bool
  | .importError _ => true
  | .otherError _ => false

/-- The outside world as seen by `detect_hardware`:
the outcome of `import torch; torch.cuda.is_available()` (either a boolean
or a raised exception) and the outcome of `subprocess.run(["lspci"])`
(its captured stdout, or a raised exception). -/
structure HwEnv where
  torch_cuda : Except PyErr Bool
  lspci_out : Except PyErr String
deriving Repr

/-- Python's `"ascend" in result.stdout.lower()` (runner.py line 93). -/
def containsAscend (s : String) : Bool :=
  (s.toLower.splitOn "ascend").length ≥ 2

/-- Embeds `BenchmarkRunner._detect_nvidia_gpu` (runner.py lines 80-86): returns
`torch.cuda.is_available()`, converting an `ImportError` to `False`.
Any other exception propagates — the `except` clause names only
`ImportError`. -/
def detect_nvidia_gpu (torch_cuda : Except PyErr Bool) : Except PyErr Bool :=
  match torch_cuda with
  | .ok b => .ok b
  | .error e => if e.isImportError then .ok false else .error e

/-- Embeds `BenchmarkRunner._detect_ascend_npu` (runner.py lines 88-95): checks
`lspci` output for the substring `"ascend"`; the bare `except:` converts
every exception to `False`, so this detector never raises. -/
def detect_ascend_npu (lspci_out : Except PyErr String) : Bool :=
  match lspci_out with
  | .ok out => containsAscend out
  | .error _ => false

/-- Embeds `BenchmarkRunner.detect_hardware` (runner.py lines 65-78):
`self.config.get("hardware", {}).get("type", "auto")`; an explicit non-auto
value is returned unchanged; under `"auto"` the NVIDIA detector is tried
first, then the Ascend detector, else `"unknown"`.  An exception escaping
`_detect_nvidia_gpu` propagates out of `detect_hardware`. -/
def detect_hardware (hw_type_cfg : Option String) (env : HwEnv) :
    Except PyErr String :=
  let hardware_type := hw_type_cfg.getD "auto"
  if hardware_type = "auto" then
    match detect_nvidia_gpu env.torch_cuda with
    | .error e => .error e
    | .ok true => .ok "nvidia"
    | .ok false =>
      if detect_ascend_npu env.lspci_out then .ok "ascend" else .ok "unknown"
  else .ok hardware_type

/-- Whether an `Except` value is a normal (non-raising) outcome. -/
def hwOk (r : Except PyErr String) : Bool :=
  match r with
  | .ok _ => true
  | .error _ => false

/-! ### MetricsCollector: summaries (`metrics.py`) -/

/-- A string-keyed dict of numeric metric values, as produced by the probes
(`collect_system_metrics` and friends) and consumed by
`_calculate_average_metrics`. -/
abbrev MetricDict := List (String × Rat)

/-- Python's `m.get(key, 0)` on a metric dict. -/
def dictGet (m : MetricDict) (k : String) : Rat :=
  match m.lookup k with
  | some v => v
  | none => 0

/-- Python's `max(seq)` on a non-empty sequence; the `[]` case never arises
under the non-empty guard of `_calculate_average_metrics` and is given the
irrelevant value `0`. -/
def pymax : List Rat → Rat
  | [] => 0
  | x :: xs => xs.foldl max x

/-- Embeds `MetricsCollector._calculate_average_metrics` (metrics.py lines
249-261): on an empty list returns the empty dict; otherwise returns a dict
with exactly the four fixed keys, each mean taken over ALL samples with an
absent field read as `0` via `m.get(field, 0)`, and each max likewise. -/
def calculate_average_metrics (ms : List MetricDict) : MetricDict :=
  if ms.isEmpty then []
  else
    [("avg_cpu_percent",
        (ms.map (fun m => dictGet m "cpu_percent")).sum / (ms.length : Rat)),
     ("avg_memory_percent",
        (ms.map (fun m => dictGet m "memory_percent")).sum / (ms.length : Rat)),
     ("max_cpu_percent", pymax (ms.map (fun m => dictGet m "cpu_percent"))),
     ("max_memory_percent", pymax (ms.map (fun m => dictGet m "memory_percent")))]

/-- One element of `metrics_data`, as built by `collect_current_metrics`
(metrics.py lines 74-85).  `get_metrics_summary` guards each component with
`if "system" in metrics` etc., so the components are `Option`-valued here. -/
structure MetricSample where
  timestamp : Nat
  system : Option MetricDict
  gpu : Option MetricDict
  npu : Option MetricDict
deriving DecidableEq, Repr

/-- The non-empty summary dict built by `get_metrics_summary`
(metrics.py lines 239-245). -/
structure MetricsSummary where
  collection_duration : Rat
  total_samples : Nat
  system : MetricDict
  gpu : MetricDict
  npu : MetricDict
deriving DecidableEq, Repr

/-- Embeds `MetricsCollector.get_metrics_summary` (metrics.py lines 221-247):
returns the empty dict (`none` here) when `metrics_data` is empty;
otherwise `total_samples = len(metrics_data)`,
`collection_duration = time.time() - start_time if start_time else 0`, and
per-source averages over the samples that carry that source. -/
def get_metrics_summary (data : List MetricSample) (start_time : Option Rat)
    (now : Rat) : Option MetricsSummary :=
  if data.isEmpty then none
  else some
    { collection_duration :=
        match start_time with
        | some s => now - s
        | none => 0
      total_samples := data.length
      system := calculate_average_metrics (data.filterMap (fun m => m.system))
      gpu := calculate_average_metrics (data.filterMap (fun m => m.gpu))
      npu := calculate_average_metrics (data.filterMap (fun m => m.npu)) }

/-! ### MetricsCollector: start/stop and the sampling loop

The flag-guarded collector thread of `metrics.py` is modelled as an
interleaving transition system: the collector's shared fields plus the
program counter of the background `_collection_loop` thread.  `stop_collection`
sets `is_collecting = False` and `stop_event`, then `join`s with a 5-second
timeout (metrics.py line 59) — so when it returns, the loop thread may be at
any program point (`join` may have timed out), which the model expresses by
quantifying over the residual loop steps. -/

/-- Program counter of the `_collection_loop` thread (metrics.py lines
63-72): about to test `stop_event.is_set()`, inside the body before the
`append` (it has passed the test and is collecting a sample), or exited. -/
inductive LoopPC where
  | atCheck
  | inBody
  | done
deriving DecidableEq, Repr

/-- Shared state of one `MetricsCollector` plus its loop thread's program
counter.  Samples are abstracted to identifiers (`Nat`); `active_tasks`
counts the sampling threads started and not yet exited. -/
structure CollectorState where
  is_collecting : Bool
  stop_event : Bool
  metrics_data : List Nat
  start_time : Option Rat
  active_tasks : Nat
  pc : LoopPC
deriving DecidableEq, Repr

/-- One step of the `_collection_loop` thread (metrics.py lines 63-72):
at the `while` test it exits when `stop_event` is set and otherwise enters
the body; from inside the body it appends the sample it collected and
returns to the test (the `sleep` is absorbed into reaching the next test). -/
inductive LoopStep : CollectorState → CollectorState → Prop where
  | exitLoop (s : CollectorState) (h1 : s.pc = .atCheck) (h2 : s.stop_event = true) :
      LoopStep s { s with pc := .done, active_tasks := s.active_tasks - 1 }
  | enterBody (s : CollectorState) (h1 : s.pc = .atCheck) (h2 : s.stop_event = false) :
      LoopStep s { s with pc := .inBody }
  | appendSample (s : CollectorState) (x : Nat) (h1 : s.pc = .inBody) :
      LoopStep s { s with metrics_data := s.metrics_data ++ [x], pc := .atCheck }

/-- Zero or more loop-thread steps. -/
abbrev LoopSteps : CollectorState → CollectorState → Prop :=
  Relation.ReflTransGen LoopStep

/-- The state changes performed by `MetricsCollector.stop_collection`
(metrics.py lines 49-61) before it returns: when collecting, clear
`is_collecting` and set `stop_event`, then `join(timeout=5)` — which mutates
nothing; when not collecting, warn and change nothing. -/
def stop_signal (s : CollectorState) : CollectorState :=
  if s.is_collecting then { s with is_collecting := false, stop_event := true }
  else s

/-- The state changes performed by `MetricsCollector.start_collection`
(metrics.py lines 31-47): when already collecting, warn and change nothing;
otherwise set `is_collecting`, clear `metrics_data`, record `start_time`,
clear `stop_event` and launch one fresh loop thread. -/
def start_collection (s : CollectorState) (now : Rat) : CollectorState :=
  if s.is_collecting then s
  else
    { is_collecting := true
      stop_event := false
      metrics_data := []
      start_time := some now
      active_tasks := s.active_tasks + 1
      pc := .atCheck }

/-! ### Shared lemmas -/

/-- The orchestrator loop is the map of `run_unit_result` over the enabled
entries, in configuration order. -/
theorem run_benchmarks_characterization (cfg : List (String × EntryConfig))
    (unit : String → EntryConfig → Except String BenchResult) (t : Nat) :
    run_benchmarks cfg unit t =
      (cfg.filter entryEnabled).map (run_unit_result unit t) := by
  induction cfg with
  | nil => rfl
  | cons p rest ih =>
    obtain ⟨name, bc⟩ := p
    by_cases h : bc.enabled.getD true
    · have h2 : ¬ (bc.enabled.getD true = false) := by simp [h]
      simp only [run_benchmarks, if_neg h2, List.filter_cons, entryEnabled, h,
        if_pos, List.map_cons, ih]
      rfl
    · have h2 : bc.enabled.getD true = false := by simpa using h
      simp only [run_benchmarks, if_pos h2, List.filter_cons, entryEnabled, h2,
        ih]
      simp

/-- A results list whose statuses are all `"success"` or `"failed"` is
partitioned by the two status filters of `generate_report`. -/
theorem status_filter_partition (results : List BenchResult)
    (h : ∀ r ∈ results, r.status = some "success" ∨ r.status = some "failed") :
    (results.filter (fun r => r.status == some "success")).length +
      (results.filter (fun r => r.status == some "failed")).length =
      results.length := by
  induction results with
  | nil => rfl
  | cons r rs ih =>
    have hr := h r (List.mem_cons_self r rs)
    have hrs : ∀ x ∈ rs, x.status = some "success" ∨ x.status = some "failed" :=
      fun x hx => h x (List.mem_cons_of_mem r hx)
    have := ih hrs
    rcases hr with hs | hs <;>
      simp only [List.filter_cons, hs, beq_iff_eq, Option.some.injEq] <;>
      simp <;> omega

/-! ### Claim C1 -/

/-- Claim C1, counterexample to the claim as stated: a group with one
enabled entry whose unit raises an exception with an empty message
(`str(e) == ''`, e.g. `raise Exception()`) yields one result whose status
is `"failed"` but whose error message is the EMPTY string — the claim's
"non-empty error message" does not hold. -/
theorem C1_counterexample :
    (run_benchmarks [("a", ⟨some true⟩)] (fun _ _ => Except.error "") 7).map
        (fun r => (r.status, r.error)) =
      [(some "failed", some "")] := by
  rfl

/-- Claim C1 as amended: running a group yields exactly one result per
enabled entry, in configuration order (the run equals the map of the
per-entry result over the enabled entries, so a disabled entry produces no
result and one unit's failure never aborts the group); when a unit raises,
the appended result has status `"failed"` and its error equals the raised
message — which may be empty. -/
theorem C1_amended (cfg : List (String × EntryConfig))
    (unit : String → EntryConfig → Except String BenchResult) (t : Nat) :
    run_benchmarks cfg unit t =
      (cfg.filter entryEnabled).map (run_unit_result unit t) ∧
    (run_benchmarks cfg unit t).length = (cfg.filter entryEnabled).length ∧
    ∀ name bc e, unit name bc = Except.error e →
      run_unit_result unit t (name, bc) = failedResult name e t ∧
        (run_unit_result unit t (name, bc)).status = some "failed" ∧
        (run_unit_result unit t (name, bc)).error = some e := by
  refine ⟨run_benchmarks_characterization cfg unit t, ?_, ?_⟩
  · rw [run_benchmarks_characterization cfg unit t, List.length_map]
  · intro name bc e he
    simp [run_unit_result, he, failedResult]

/-- Claim C1 amended, witness: the end-to-end scenario of the spec —
entries `a` enabled (succeeds), `b` disabled, `c` enabled (raises
`"boom"`) — yields exactly two results: the success dict of `a` and the
failure dict of `c`, in order. -/
theorem C1_amended_witness :
    run_benchmarks
        [("a", ⟨some true⟩), ("b", ⟨some false⟩), ("c", ⟨some true⟩)]
        (fun name _ =>
          if name = "c" then Except.error "boom"
          else Except.ok
            { benchmark_name := some name, type := some "training",
              status := some "success",
              metrics := some [("throughput", 100)], error := none,
              timestamp := 3 }) 3 =
      [{ benchmark_name := some "a", type := some "training",
         status := some "success", metrics := some [("throughput", 100)],
         error := none, timestamp := 3 },
       failedResult "c" "boom" 3] := by
  rw [(C1_amended
        [("a", ⟨some true⟩), ("b", ⟨some false⟩), ("c", ⟨some true⟩)]
        (fun name _ =>
          if name = "c" then Except.error "boom"
          else Except.ok
            { benchmark_name := some name, type := some "training",
              status := some "success",
              metrics := some [("throughput", 100)], error := none,
              timestamp := 3 }) 3).1]
  rfl

/-! ### Claim C10 -/

/-- Claim C10: an entry whose mapping has no `enabled` key is treated as
enabled (`benchmark_config.get("enabled", True)`) and produces a result;
an entry is dropped from the output exactly when `enabled` is present and
falsy, and every entry whose `enabled` is absent or truthy contributes one
result. -/
theorem C10_theorem (unit : String → EntryConfig → Except String BenchResult)
    (t : Nat) (name : String) (bc : EntryConfig)
    (rest : List (String × EntryConfig)) :
    (bc.enabled = none →
      run_benchmarks ((name, bc) :: rest) unit t =
        run_unit_result unit t (name, bc) :: run_benchmarks rest unit t) ∧
    (bc.enabled = some false →
      run_benchmarks ((name, bc) :: rest) unit t =
        run_benchmarks rest unit t) ∧
    (bc.enabled ≠ some false →
      (run_benchmarks ((name, bc) :: rest) unit t).length =
        (run_benchmarks rest unit t).length + 1) := by
  refine ⟨?_, ?_, ?_⟩
  · intro h
    simp only [run_benchmarks, h, Option.getD_none]
    rfl
  · intro h
    simp [run_benchmarks, h]
  · intro h
    have hg : ¬ (bc.enabled.getD true = false) := by
      cases hb : bc.enabled with
      | none => simp
      | some b =>
        cases b with
        | false => exact absurd hb h
        | true => simp
    simp only [run_benchmarks, if_neg hg, List.length_cons]

/-- Claim C10, witness: a single entry with no `enabled` key runs and, its
unit raising `"x"`, produces the failure result. -/
theorem C10_witness :
    run_benchmarks [("a", ⟨none⟩)] (fun _ _ => Except.error "x") 0 =
      [failedResult "a" "x" 0] :=
  (C10_theorem (fun _ _ => Except.error "x") 0 "a" ⟨none⟩ []).1 rfl

/-! ### Claim C2 -/

/-- A result dict whose status is neither `"success"` nor `"failed"`. -/
def c2_skipped : BenchResult :=
  { benchmark_name := some "a", type := none, status := some "skipped",
    metrics := none, error := none, timestamp := 0 }

/-- Claim C2, counterexample to the claim as stated: `generate_report`
computes `failed_tests` as the COUNT of results with status `"failed"`
(runner.py line 246), not as `total - successful`; on a results list whose
single entry has status `"skipped"` the emitted summary has
`successful_tests + failed_tests = 0 ≠ 1 = total_tests`. -/
theorem C2_counterexample :
    (generate_report [c2_skipped] "nvidia" 0).summary.successful_tests +
        (generate_report [c2_skipped] "nvidia" 0).summary.failed_tests ≠
      (generate_report [c2_skipped] "nvidia" 0).summary.total_tests := by
  decide

/-- Claim C2 as amended: the summary satisfies `total = len(results)`,
`successful = count(status == "success")` and
`failed = count(status == "failed")` (not `total - successful`), so
`successful + failed == total` holds exactly on lists in which every
result's status is `"success"` or `"failed"` — which is the case for every
result the runner itself produces. -/
theorem C2_amended (results : List BenchResult) (hw : String) (t : Nat) :
    (generate_report results hw t).summary.total_tests = results.length ∧
    (generate_report results hw t).summary.successful_tests =
      (results.filter (fun r => r.status == some "success")).length ∧
    (generate_report results hw t).summary.failed_tests =
      (results.filter (fun r => r.status == some "failed")).length ∧
    ((∀ r ∈ results, r.status = some "success" ∨ r.status = some "failed") →
      (generate_report results hw t).summary.successful_tests +
          (generate_report results hw t).summary.failed_tests =
        (generate_report results hw t).summary.total_tests) :=
  ⟨rfl, rfl, rfl, fun h => status_filter_partition results h⟩

/-- Claim C2 amended, witness: on one success result and one failure result
the summary counts add up: `1 + 1 = 2`. -/
theorem C2_amended_witness :
    (generate_report [failedResult "a" "e" 0,
        { benchmark_name := some "b", type := some "training",
          status := some "success", metrics := none, error := none,
          timestamp := 0 }] "nvidia" 0).summary.successful_tests +
        (generate_report [failedResult "a" "e" 0,
          { benchmark_name := some "b", type := some "training",
            status := some "success", metrics := none, error := none,
            timestamp := 0 }] "nvidia" 0).summary.failed_tests =
      (generate_report [failedResult "a" "e" 0,
        { benchmark_name := some "b", type := some "training",
          status := some "success", metrics := none, error := none,
          timestamp := 0 }] "nvidia" 0).summary.total_tests :=
  (C2_amended [failedResult "a" "e" 0,
      { benchmark_name := some "b", type := some "training",
        status := some "success", metrics := none, error := none,
        timestamp := 0 }] "nvidia" 0).2.2.2 (by decide)

/-! ### Claim C5 -/

/-- Claim C5: the success rate rendered by `_generate_html_report` is
`successful / total * 100` when `total > 0` and `0` when `total == 0`;
in particular `100` when the (non-empty) results all succeeded, and `0`
when all failed. -/
theorem C5_theorem (results : List BenchResult) (hw : String) (t : Nat) :
    (results.length = 0 →
      success_rate (generate_report results hw t).summary = 0) ∧
    (0 < results.length →
      success_rate (generate_report results hw t).summary =
        ((generate_report results hw t).summary.successful_tests : Rat) /
          (results.length : Rat) * 100) ∧
    (results ≠ [] → (∀ r ∈ results, r.status = some "success") →
      success_rate (generate_report results hw t).summary = 100) ∧
    ((∀ r ∈ results, r.status = some "failed") →
      success_rate (generate_report results hw t).summary = 0) := by
  refine ⟨?_, ?_, ?_, ?_⟩
  · intro h
    simp [success_rate, generate_report, h]
  · intro h
    simp [success_rate, generate_report, h]
  · intro hne hall
    have hfull : results.filter (fun r => r.status == some "success") = results :=
      List.filter_eq_self.mpr (fun r hr => by simp [hall r hr])
    have hlen : 0 < results.length := List.length_pos.mpr hne
    have hcast : (results.length : Rat) ≠ 0 := by
      exact_mod_cast Nat.pos_iff_ne_zero.mp hlen
    simp only [success_rate, generate_report, hfull, if_pos hlen]
    rw [div_self hcast, one_mul]
  · intro hall
    have hempty : results.filter (fun r => r.status == some "success") = [] := by
      refine List.filter_eq_nil_iff.mpr (fun r hr => ?_)
      simp [hall r hr]
    rcases Nat.eq_zero_or_pos results.length with h | h
    · simp [success_rate, generate_report, h]
    · simp [success_rate, generate_report, hempty, h]

/-- Claim C5, witness: one all-success list gives rate `100`, one
all-failed list gives rate `0`. -/
theorem C5_witness :
    success_rate (generate_report
        [{ benchmark_name := some "b", type := some "training",
           status := some "success", metrics := none, error := none,
           timestamp := 0 }] "nvidia" 0).summary = 100 ∧
    success_rate (generate_report [failedResult "a" "e" 0] "nvidia" 0).summary
      = 0 :=
  ⟨(C5_theorem
      [{ benchmark_name := some "b", type := some "training",
         status := some "success", metrics := none, error := none,
         timestamp := 0 }] "nvidia" 0).2.2.1 (by decide) (by decide),
   (C5_theorem [failedResult "a" "e" 0] "nvidia" 0).2.2.2 (by decide)⟩

/-! ### Claim C8 -/

/-- Claim C8: the JSON artifact serializes `report_data` verbatim and the
HTML artifact is rendered from the same `report_data` value, so the total,
successful and failed counts interpolated into the HTML equal those of the
JSON report's summary, and the per-result statuses rendered in the HTML
rows are the statuses of the report's results, in order. -/
theorem C8_theorem (results : List BenchResult) (hw : String) (t : Nat) :
    (generate_html_report (generate_report results hw t)).total_tests =
      (generate_report results hw t).summary.total_tests ∧
    (generate_html_report (generate_report results hw t)).successful_tests =
      (generate_report results hw t).summary.successful_tests ∧
    (generate_html_report (generate_report results hw t)).failed_tests =
      (generate_report results hw t).summary.failed_tests ∧
    (generate_html_report (generate_report results hw t)).rows.map
        (fun row => row.row_status) =
      (generate_report results hw t).results.map
        (fun r => r.status.getD "Unknown") := by
  refine ⟨rfl, rfl, rfl, ?_⟩
  simp [generate_html_report]

/-! ### Claim C9 -/

/-- Claim C9, counterexample to the claim as stated: under `"auto"`, when
`torch.cuda.is_available()` raises an exception that is not an
`ImportError`, the `except ImportError` clause of `_detect_nvidia_gpu`
(runner.py line 85) does not catch it — the detector failure escapes
`detect_hardware` as an exception instead of collapsing to a vendor string
or `"unknown"`. -/
theorem C9_counterexample :
    detect_hardware none
        ⟨Except.error (PyErr.otherError "cuda failure"), Except.ok ""⟩ =
      Except.error (PyErr.otherError "cuda failure") ∧
    hwOk (detect_hardware none
        ⟨Except.error (PyErr.otherError "cuda failure"), Except.ok ""⟩) =
      false :=
  ⟨rfl, rfl⟩

/-- Claim C9 as amended: an explicit non-`"auto"` configured value is
returned unchanged; under `"auto"` (or an absent value) the NVIDIA detector
is tried first and wins with `"nvidia"` when it reports true; when it
reports false — including when an `ImportError` was collapsed to
not-detected — the Ascend detector decides between `"ascend"` and
`"unknown"` (it never raises, its bare `except` catches everything); but an
exception other than `ImportError` raised during NVIDIA detection escapes
`detect_hardware`. -/
theorem C9_amended (cfg : Option String) (env : HwEnv) :
    (∀ v, cfg = some v → v ≠ "auto" → detect_hardware cfg env = Except.ok v) ∧
    (cfg.getD "auto" = "auto" →
      (env.torch_cuda = Except.ok true →
        detect_hardware cfg env = Except.ok "nvidia") ∧
      ((env.torch_cuda = Except.ok false ∨
          ∃ m, env.torch_cuda = Except.error (PyErr.importError m)) →
        detect_hardware cfg env =
          Except.ok
            (if detect_ascend_npu env.lspci_out then "ascend" else "unknown")) ∧
      (∀ e, env.torch_cuda = Except.error e → e.isImportError = false →
        detect_hardware cfg env = Except.error e)) := by
  constructor
  · intro v hv hne
    simp [detect_hardware, hv, hne]
  · intro hauto
    refine ⟨?_, ?_, ?_⟩
    · intro h
      simp [detect_hardware, hauto, detect_nvidia_gpu, h]
    · rintro (h | ⟨m, h⟩) <;>
        · simp only [detect_hardware, hauto, detect_nvidia_gpu, h,
            PyErr.isImportError, if_pos, if_true, reduceIte]
          split <;> rfl
    · intro e he hne
      simp [detect_hardware, hauto, detect_nvidia_gpu, he, hne]

/-- Claim C9 amended, witness: an explicit configured value `"ascend"` is
returned unchanged even though the NVIDIA probe would raise, and under
`"auto"` a working CUDA runtime yields `"nvidia"`. -/
theorem C9_witness :
    detect_hardware (some "ascend")
        ⟨Except.error (PyErr.otherError "broken install"), Except.ok ""⟩ =
      Except.ok "ascend" ∧
    detect_hardware none ⟨Except.ok true, Except.ok ""⟩ =
      Except.ok "nvidia" :=
  ⟨(C9_amended (some "ascend")
      ⟨Except.error (PyErr.otherError "broken install"), Except.ok ""⟩).1
      "ascend" rfl (by decide),
   ((C9_amended none ⟨Except.ok true, Except.ok ""⟩).2 rfl).1 rfl⟩

/-! ### Claim C3 -/

/-- Claim C3, counterexample to the claim as stated: on the sample list
`[{"memory_percent": 50}, {}]` the code reports `avg_cpu_percent = 0`
although `cpu_percent` is absent from EVERY sample (the claim says such
fields are omitted), and reports `avg_memory_percent = 25` although the
mean over exactly the samples where `memory_percent` is present would be
`50` — `_calculate_average_metrics` averages `m.get(field, 0)` over ALL
samples and emits a fixed set of fields. -/
theorem C3_counterexample :
    (calculate_average_metrics [[("memory_percent", 50)], []]).lookup
        "avg_cpu_percent" = some 0 ∧
    (calculate_average_metrics [[("memory_percent", 50)], []]).lookup
        "avg_memory_percent" = some 25 := by
  constructor <;> norm_num [calculate_average_metrics, dictGet, List.lookup] <;>
    decide

/-- Claim C3 as amended: for every non-empty sample sequence the summary
consists of exactly the four fixed entries `avg_cpu_percent`,
`avg_memory_percent`, `max_cpu_percent`, `max_memory_percent`; each
average is the arithmetic mean over ALL samples with an absent field read
as `0`, each maximum likewise; no other field is ever summarized, and the
four entries are present even when their field is absent from every
sample. -/
theorem C3_amended (ms : List MetricDict) (h : ms ≠ []) :
    (calculate_average_metrics ms).lookup "avg_cpu_percent" =
      some ((ms.map (fun m => dictGet m "cpu_percent")).sum /
        (ms.length : Rat)) ∧
    (calculate_average_metrics ms).lookup "avg_memory_percent" =
      some ((ms.map (fun m => dictGet m "memory_percent")).sum /
        (ms.length : Rat)) ∧
    (calculate_average_metrics ms).lookup "max_cpu_percent" =
      some (pymax (ms.map (fun m => dictGet m "cpu_percent"))) ∧
    (calculate_average_metrics ms).lookup "max_memory_percent" =
      some (pymax (ms.map (fun m => dictGet m "memory_percent"))) ∧
    ∀ k, k ≠ "avg_cpu_percent" → k ≠ "avg_memory_percent" →
      k ≠ "max_cpu_percent" → k ≠ "max_memory_percent" →
      (calculate_average_metrics ms).lookup k = none := by
  have hne : ms.isEmpty = false := by
    cases ms with
    | nil => exact absurd rfl h
    | cons a as => rfl
  refine ⟨?_, ?_, ?_, ?_, ?_⟩
  · simp [calculate_average_metrics, hne]
  · simp [calculate_average_metrics, hne, List.lookup]
  · simp [calculate_average_metrics, hne, List.lookup]
  · simp [calculate_average_metrics, hne, List.lookup]
  · intro k h1 h2 h3 h4
    have b1 : (k == "avg_cpu_percent") = false := beq_eq_false_iff_ne.mpr h1
    have b2 : (k == "avg_memory_percent") = false := beq_eq_false_iff_ne.mpr h2
    have b3 : (k == "max_cpu_percent") = false := beq_eq_false_iff_ne.mpr h3
    have b4 : (k == "max_memory_percent") = false := beq_eq_false_iff_ne.mpr h4
    simp [calculate_average_metrics, hne, List.lookup, b1, b2, b3, b4]

/-- Claim C3 amended, witness: on the single empty sample the four fixed
entries are present (all zero) and an arbitrary other field, here
`avg_disk_percent`, is absent. -/
theorem C3_witness :
    (calculate_average_metrics [[]]).lookup "avg_cpu_percent" = some 0 ∧
    (calculate_average_metrics [[]]).lookup "avg_disk_percent" = none := by
  constructor
  · have h := (C3_amended [[]] (by decide)).1
    simpa [dictGet] using h
  · exact (C3_amended [[]] (by decide)).2.2.2.2 "avg_disk_percent"
      (by decide) (by decide) (by decide) (by decide)

/-! ### Claim C4 -/

/-- Claim C4: for a completed session with `N` samples the summary reports
`total_samples == N`; and for an empty sample sequence `get_metrics_summary`
returns the empty summary (`none`), a total function that cannot raise or
divide by zero. -/
theorem C4_theorem (data : List MetricSample) (st : Option Rat) (now : Rat) :
    (data = [] → get_metrics_summary data st now = none) ∧
    (∀ s, get_metrics_summary data st now = some s →
      s.total_samples = data.length) := by
  constructor
  · intro h
    simp [get_metrics_summary, h]
  · intro s hs
    cases hd : data.isEmpty with
    | true => simp [get_metrics_summary, hd] at hs
    | false =>
      simp only [get_metrics_summary, hd, Bool.false_eq_true, if_false,
        Option.some.injEq] at hs
      rw [← hs]

/-- Claim C4, witness: the empty session yields `none`, and a one-sample
session reports `total_samples = 1`. -/
theorem C4_witness :
    get_metrics_summary [] none 0 = none ∧
    (get_metrics_summary [⟨0, none, none, none⟩] none 0).map
        (fun s => s.total_samples) = some 1 := by
  refine ⟨(C4_theorem [] none 0).1 rfl, ?_⟩
  exact congrArg some ((C4_theorem [⟨0, none, none, none⟩] none 0).2
    { collection_duration := 0, total_samples := 1, system := [],
      gpu := [], npu := [] } rfl)

/-! ### Claims C6 and C7: start/stop of the sampling loop -/

/-- How many further appends the loop thread can still perform once
`stop_event` is set: one when it is already past the `while` test, none
otherwise. -/
def slack : LoopPC → Nat
  | .inBody => 1
  | .atCheck => 0
  | .done => 0

/-- One loop step taken after `stop_event` is set keeps the event set,
leaves `is_collecting` alone, and does not increase
`metrics_data.length + slack pc`. -/
theorem loopStep_stop_invariant {s t : CollectorState} (h : LoopStep s t)
    (hs : s.stop_event = true) :
    t.stop_event = true ∧ t.is_collecting = s.is_collecting ∧
    t.metrics_data.length + slack t.pc ≤ s.metrics_data.length + slack s.pc := by
  cases h with
  | exitLoop h1 h2 => simp [slack, h1, hs]
  | enterBody h1 h2 => rw [hs] at h2; cases h2
  | appendSample x h1 => simp [slack, h1, hs]

/-- Transitive closure of `loopStep_stop_invariant`. -/
theorem loopSteps_stop_invariant {s t : CollectorState} (h : LoopSteps s t)
    (hs : s.stop_event = true) :
    t.stop_event = true ∧ t.is_collecting = s.is_collecting ∧
    t.metrics_data.length + slack t.pc ≤ s.metrics_data.length + slack s.pc := by
  induction h with
  | refl => exact ⟨hs, rfl, le_refl _⟩
  | tail hst hstep ih =>
    obtain ⟨h1, h2, h3⟩ := ih
    obtain ⟨g1, g2, g3⟩ := loopStep_stop_invariant hstep h1
    exact ⟨g1, g2.trans h2, g3.trans h3⟩

/-- A loop thread that has exited takes no further step. -/
theorem loopStep_done {s t : CollectorState} (h : LoopStep s t)
    (hd : s.pc = .done) : False := by
  cases h with
  | exitLoop h1 h2 => rw [hd] at h1; cases h1
  | enterBody h1 h2 => rw [hd] at h1; cases h1
  | appendSample x h1 => rw [hd] at h1; cases h1

/-- A loop thread that has exited never changes the state again. -/
theorem loopSteps_done {s t : CollectorState} (h : LoopSteps s t)
    (hd : s.pc = .done) : t = s := by
  induction h with
  | refl => rfl
  | tail hst hstep ih => exact absurd hd (fun hd2 => loopStep_done (ih ▸ hstep) hd2)

/-! ### Claim C6 -/

/-- A collector in the middle of one loop iteration: the thread has passed
the `while stop_event.is_set()` test and is collecting a sample
(metrics.py line 67), so `join(timeout=5)` inside `stop_collection` can
time out and return while the thread still holds an un-appended sample. -/
def c6_mid : CollectorState :=
  { is_collecting := true, stop_event := false, metrics_data := [],
    start_time := some 0, active_tasks := 1, pc := .inBody }

/-- Claim C6, counterexample to the claim as stated: after
`stop_collection` returns on `c6_mid` (its join timed out with the thread
still inside the loop body), the collector does report itself not running —
but the abandoned thread can still take a legal step that appends its
sample, mutating the sequence after `stop_collection` has returned. -/
theorem C6_counterexample :
    (stop_signal c6_mid).is_collecting = false ∧
    LoopStep (stop_signal c6_mid)
      { stop_signal c6_mid with metrics_data := [7], pc := .atCheck } ∧
    ({ stop_signal c6_mid with
        metrics_data := [7], pc := .atCheck }).metrics_data ≠
      (stop_signal c6_mid).metrics_data := by
  refine ⟨rfl, ?_, by decide⟩
  exact LoopStep.appendSample (stop_signal c6_mid) 7 rfl

/-- Claim C6 as amended: after `stop_collection` returns the collector
reports itself not running, and that is preserved by every further loop
step; the sequence can grow by AT MOST ONE further sample (the one the
abandoned thread was holding when the join timed out), and when the join
did complete — the thread had exited, `pc = done` — the state, and in
particular the sample sequence, never changes again. -/
theorem C6_amended (s s' : CollectorState) (hrun : s.is_collecting = true)
    (hsteps : LoopSteps (stop_signal s) s') :
    (stop_signal s).is_collecting = false ∧
    s'.is_collecting = false ∧
    s'.metrics_data.length ≤ s.metrics_data.length + 1 ∧
    ((stop_signal s).pc = .done → s' = stop_signal s) := by
  have hstop : stop_signal s =
      { s with is_collecting := false, stop_event := true } := by
    simp [stop_signal, hrun]
  have hinv := loopSteps_stop_invariant hsteps (by rw [hstop])
  obtain ⟨h1, h2, h3⟩ := hinv
  refine ⟨by rw [hstop], by rw [h2, hstop], ?_, fun hd => loopSteps_done hsteps hd⟩
  rw [hstop] at h3
  have hslack : slack s.pc ≤ 1 := by
    cases hpc : s.pc <;> simp [slack]
  simp only at h3
  omega

/-- Claim C6 amended, witness: a running collector whose thread already
exited (`pc = done`) — `stop_collection` returns, the collector is not
running, and with zero residual steps the sequence `[3]` is unchanged. -/
theorem C6_witness :
    (stop_signal ⟨true, true, [3], some 0, 0, .done⟩).is_collecting = false ∧
    (stop_signal ⟨true, true, [3], some 0, 0, .done⟩).is_collecting = false ∧
    (stop_signal ⟨true, true, [3], some 0, 0, .done⟩).metrics_data.length ≤
      (⟨true, true, [3], some 0, 0, .done⟩ : CollectorState).metrics_data.length
        + 1 ∧
    ((stop_signal ⟨true, true, [3], some 0, 0, .done⟩).pc = .done →
      stop_signal ⟨true, true, [3], some 0, 0, .done⟩ =
        stop_signal ⟨true, true, [3], some 0, 0, .done⟩) :=
  C6_amended ⟨true, true, [3], some 0, 0, .done⟩
    (stop_signal ⟨true, true, [3], some 0, 0, .done⟩) rfl
    Relation.ReflTransGen.refl

/-! ### Claim C7 -/

/-- Claim C7: calling `start_collection` while collection is already
running changes nothing — the sample sequence is not cleared, the recorded
start time is unchanged, and no additional sampling thread is launched, so
exactly the already-running task remains active. -/
theorem C7_theorem (s : CollectorState) (now : Rat)
    (h : s.is_collecting = true) :
    start_collection s now = s ∧
    (start_collection s now).metrics_data = s.metrics_data ∧
    (start_collection s now).start_time = s.start_time ∧
    (start_collection s now).active_tasks = s.active_tasks := by
  have he : start_collection s now = s := by simp [start_collection, h]
  exact ⟨he, by rw [he], by rw [he], by rw [he]⟩

/-- Claim C7, witness: a running collector with one active task, two
samples and start time `1` is untouched by a second `start_collection`. -/
theorem C7_witness :
    start_collection ⟨true, false, [3, 4], some 1, 1, .inBody⟩ 5 =
      ⟨true, false, [3, 4], some 1, 1, .inBody⟩ ∧
    (start_collection ⟨true, false, [3, 4], some 1, 1, .inBody⟩ 5).metrics_data
      = [3, 4] ∧
    (start_collection ⟨true, false, [3, 4], some 1, 1, .inBody⟩ 5).start_time
      = some 1 ∧
    (start_collection ⟨true, false, [3, 4], some 1, 1, .inBody⟩ 5).active_tasks
      = 1 :=
  C7_theorem ⟨true, false, [3, 4], some 1, 1, LoopPC.inBody⟩ 5 rfl

end XpuBench
